import Mathlib

/-!
Verification development for the index_camera_passthrough repository.

The Rust sources are shallowly embedded: 4x4 `f32`/`f64` matrices become
`Matrix (Fin 4) (Fin 4) ℚ` (exact arithmetic in place of machine floats),
fallible Rust functions become `Except`/`Option` values, mutation of
`&mut self` becomes explicit state passing, and calls into the GPU / VR
runtime are recorded as events or read from an explicit runtime-state
record.  Each definition is annotated with the source location it embeds.
-/

namespace ICP

/-- 4x4 matrix over exact rationals, standing for nalgebra `Matrix4<f32>`. -/
abbrev M4 := Matrix (Fin 4) (Fin 4) ℚ

/-- Computable matrix inverse over the field ℚ (adjugate divided by the
determinant); agrees with Mathlib's noncomputable `Inv.inv` on invertible
matrices and is the value nalgebra's `try_inverse` produces. -/
def minv (A : M4) : M4 := A.det⁻¹ • A.adjugate

/-- nalgebra `Matrix4::try_inverse`: `none` exactly when the matrix is
singular. -/
def tryInverse (A : M4) : Option M4 :=
  if A.det = 0 then none else some (minv A)

/-- src/src/projection.rs:50-54 `enum ProjectionMode`. -/
inductive ProjectionMode
  | FromCamera
  | FromEye
  deriving DecidableEq

/-- src/src/projection.rs:56-62 `struct Projection` (the GPU handles —
device, pipeline, render pass — carry no claim-relevant state; the source
texture is kept as its dimensions, and `mode`). -/
structure Projection where
  sourceW : ℕ
  sourceH : ℕ
  mode : ProjectionMode
  deriving DecidableEq

/-- src/src/projection.rs:171-175 `Projection::new`: the dimension check on
the source texture.  Later steps (shader loading, pipeline build) only fail
for GPU-environment reasons outside this embedding. -/
def Projection.new (w h : ℕ) (mode : ProjectionMode) : Except String Projection :=
  if w ≠ h * 2 then Except.error "Input not square"
  else Except.ok ⟨w, h, mode⟩

/-- src/src/projection.rs:130-135 `left_cam`: camera space to HMD space
transform of the left camera, from physical measurements. -/
def left_cam : M4 :=
  !![1, 0, 0, -(67/1000);
     0, 1, 0, -(39/1000);
     0, 0, 1, -(7/100);
     0, 0, 0, 1]

/-- src/src/projection.rs:136-141 `right_cam`. -/
def right_cam : M4 :=
  !![1, 0, 0, 67/1000;
     0, 1, 0, -(39/1000);
     0, 0, 1, -(7/100);
     0, 0, 0, 1]

/-- src/src/projection.rs:160-165 `camera_projection`: X gets
`camera_fov / 2.0` because the source texture is side-by-side stereo. -/
def camera_projection (camera_fov : ℚ) : M4 :=
  !![camera_fov / 2, 0, 0, 0;
     0, camera_fov, 0, 0;
     0, 0, -1, 0;
     0, 0, 0, 1]

/-- The VR-runtime state read by `calculate_mvp` through FFI
(`GetDeviceToAbsoluteTrackingPose`, `GetEyeToHeadTransform`): the pose is a
function of the requested prediction-time offset. -/
structure VRSystemState where
  poseAt : ℚ → M4
  eyeToHeadLeft : M4
  eyeToHeadRight : M4

/-- src/src/projection.rs:98-170 `Projection::calculate_mvp`.  The wall
clock read (`Instant::now()`) becomes the explicit argument `now`; the
runtime queries read from `ivrsystem`; the `.expect` on `try_inverse`
becomes `Option` (`none` = panic on a singular transform). -/
def Projection.calculate_mvp (p : Projection) (overlay_transform : M4)
    (camera_fov : ℚ) (ivrsystem : VRSystemState)
    (now frame_time time_origin : ℚ) : Option (M4 × M4) :=
  let elapsed := now - time_origin - frame_time
  let transform := ivrsystem.poseAt (-elapsed)
  let eyes :=
    match p.mode with
    | ProjectionMode.FromEye =>
        (transform * ivrsystem.eyeToHeadLeft, transform * ivrsystem.eyeToHeadRight)
    | ProjectionMode.FromCamera =>
        (transform * left_cam, transform * right_cam)
  match tryInverse eyes.1, tryInverse eyes.2 with
  | some left_view, some right_view =>
      some (camera_projection camera_fov * left_view * overlay_transform,
            camera_projection camera_fov * right_view * overlay_transform)
  | _, _ => none

/-- Uniform block `fs::ty::Info` built in src/src/projection.rs:294-300 and
342-348 and handed to the projection fragment shader. -/
structure ShaderInfo where
  mvp : M4
  texOffset : ℚ × ℚ
  overlayWidth : ℚ
  windowSize : ℚ × ℚ
  eyeOffset : ℚ

/-- One per-eye draw recorded by `Projection::project`: its uniform block
and the viewport it is restricted to. -/
structure DrawCall where
  info : ShaderInfo
  viewportOrigin : ℚ × ℚ
  viewportDim : ℚ × ℚ

/-- src/src/projection.rs:213-389 `Projection::project`, reduced to the
data it records for the two per-eye draws (command-buffer plumbing and the
initial full-image copy carry no claim-relevant state).  `w / 2` is the
Rust integer division on the source width. -/
def Projection.project (p : Projection) (overlay_width ipd : ℚ)
    (left right : M4) : DrawCall × DrawCall :=
  let w := p.sourceW
  let h := p.sourceH
  let eye_offset : ℚ :=
    if p.mode = ProjectionMode.FromEye then 67/1000 - ipd / 2 else 0
  (⟨⟨left, (0, 0), overlay_width, (((w / 2 : ℕ) : ℚ), (h : ℚ)), eye_offset⟩,
    (0, 0), (((w / 2 : ℕ) : ℚ), (h : ℚ))⟩,
   ⟨⟨right, (1/2, 0), overlay_width, (((w / 2 : ℕ) : ℚ), (h : ℚ)), eye_offset⟩,
    (((w / 2 : ℕ) : ℚ), 0), (((w / 2 : ℕ) : ℚ), (h : ℚ))⟩)

/-- Modelled from the spec: a homogeneous 4x4 translation, used to state
the fixed measured camera-to-head offsets of spec section 4.4. -/
def translationMatrix (x y z : ℚ) : M4 :=
  !![1, 0, 0, x;
     0, 1, 0, y;
     0, 0, 1, z;
     0, 0, 0, 1]

/-- Eye selector for the per-eye spec formulas. -/
inductive Eye
  | left
  | right
  deriving DecidableEq

/-- Modelled from the spec: `EyeToCameraTransform` is either the
VR-runtime-reported eye-to-head transform (FromEye) or the fixed measured
camera-to-head offset (FromCamera): lateral plus/minus 6.7 cm, vertical
-3.9 cm, forward -7 cm for right/left respectively. -/
def EyeToCameraTransform (mode : ProjectionMode) (eye : Eye)
    (sys : VRSystemState) : M4 :=
  match mode, eye with
  | ProjectionMode.FromEye, Eye.left => sys.eyeToHeadLeft
  | ProjectionMode.FromEye, Eye.right => sys.eyeToHeadRight
  | ProjectionMode.FromCamera, Eye.left =>
      translationMatrix (-(67/1000)) (-(39/1000)) (-(7/100))
  | ProjectionMode.FromCamera, Eye.right =>
      translationMatrix (67/1000) (-(39/1000)) (-(7/100))

/-- Modelled from the spec: `HeadPose` sampled at a negative offset,
elapsed wall time since the shared origin minus capture latency. -/
def HeadPose (sys : VRSystemState) (now frame_time time_origin : ℚ) : M4 :=
  sys.poseAt (-(now - time_origin - frame_time))

/-- Modelled from the spec: `EyeView = inverse(HeadPose x EyeToCameraTransform)`. -/
def EyeView (mode : ProjectionMode) (eye : Eye) (sys : VRSystemState)
    (now frame_time time_origin : ℚ) : M4 :=
  minv (HeadPose sys now frame_time time_origin * EyeToCameraTransform mode eye sys)

/-- Modelled from the spec: `CameraProjection = diag(fov_x/2, fov_y, -1, 1)`. -/
def CameraProjection (fovx fovy : ℚ) : M4 :=
  Matrix.diagonal ![fovx / 2, fovy, -1, 1]

/-- Modelled from the spec: `MVP = CameraProjection x EyeView x OverlayModel`
(this code revision feeds one scalar fov to both axes). -/
def MVP (mode : ProjectionMode) (eye : Eye) (sys : VRSystemState)
    (overlay : M4) (fov now frame_time time_origin : ℚ) : M4 :=
  CameraProjection fov fov * EyeView mode eye sys now frame_time time_origin * overlay

/-- Per-eye horizontal/vertical field of view, the Rust `[[f32; 2]; 2]`:
`((left x, left y), (right x, right y))`. -/
abbrev Fov := (ℚ × ℚ) × (ℚ × ℚ)

/-- src/src/pipeline.rs:265 `[[1.19; 2]; 2]`: the fixed default fov
(roughly 100 degrees per axis). -/
def defaultFov : Fov := ((119/100, 119/100), (119/100, 119/100))

/-- Modelled from the spec: camera calibration (`crate::vrapi::StereoCamera`,
whose file is not in this snapshot).  Only the effective fov the Distortion
Corrector derives from it matters to the claims below. -/
structure StereoCamera where
  fovFromCalib : Fov
  deriving DecidableEq

/-- Modelled from the spec: the Distortion Corrector
(`crate::distortion_correction::StereoCorrection`, whose file is not in
this snapshot) as the effective fov it exposes. -/
structure StereoCorrection where
  fovCalib : Fov
  deriving DecidableEq

/-- Modelled from the spec: `StereoCorrection::new` derives the effective
fov from the calibration. -/
def StereoCorrection.new (cfg : StereoCamera) : StereoCorrection :=
  ⟨cfg.fovFromCalib⟩

/-- Modelled from the spec: `StereoCorrection::fov`. -/
def StereoCorrection.fov (c : StereoCorrection) : Fov := c.fovCalib

/-- `crate::config::DisplayMode` (file not in this snapshot);
src/src/pipeline.rs:238-253 distinguishes exactly `Stereo { projection_mode }`
from every other (mono) mode. -/
inductive DisplayMode
  | mono
  | stereo (projection_mode : ProjectionMode)
  deriving DecidableEq

/-- src/src/pipeline.rs:21-33 `struct Pipeline`.  GPU allocators carry no
claim-relevant state.  `finalTextureId` records the final value of the
`texture_id` local of `Pipeline::new` (the ping-pong parity after
construction); `fovAtNew` records the fov value computed (and logged) at
src/src/pipeline.rs:262-266. -/
structure Pipeline where
  yuv : Bool
  correction : Option StereoCorrection
  projection : Option ProjectionMode
  capture : Bool
  renderDoc : Bool
  ipd : ℚ
  finalTextureId : ℕ
  fovAtNew : Fov
  deriving DecidableEq

/-- src/src/pipeline.rs:191-283 `Pipeline::new`.  `renderDocAttached`
models whether `renderdoc::RenderDoc::new()` succeeded.  The stage
constructors' GPU-side failure modes are environmental and not modelled;
their dimension preconditions hold at the fixed camera size. -/
def Pipeline.new (source_is_yuv : Bool) (display_mode : DisplayMode)
    (ipd : ℚ) (camera_config : Option StereoCamera)
    (renderDocAttached : Bool) : Pipeline :=
  let texture_id0 : ℕ := 0
  let texture_id1 := if source_is_yuv then texture_id0 ^^^ 1 else texture_id0
  let correction := camera_config.map StereoCorrection.new
  let texture_id2 := if camera_config.isSome then texture_id1 ^^^ 1 else texture_id1
  let projection : Option ProjectionMode :=
    match display_mode with
    | DisplayMode.stereo m => some m
    | DisplayMode.mono => none
  let texture_id3 :=
    match display_mode with
    | DisplayMode.stereo _ => texture_id2 ^^^ 1
    | DisplayMode.mono => texture_id2
  let fov := (correction.map StereoCorrection.fov).getD defaultFov
  { yuv := source_is_yuv, correction := correction, projection := projection,
    capture := false, renderDoc := renderDocAttached, ipd := ipd,
    finalTextureId := texture_id3, fovAtNew := fov }

/-- src/src/pipeline.rs:388-390 `Pipeline::capture_next_frame`. -/
def Pipeline.capture_next_frame (p : Pipeline) : Pipeline :=
  { p with capture := true }

/-- src/src/pipeline.rs:392-394 `Pipeline::set_ipd`. -/
def Pipeline.set_ipd (p : Pipeline) (ipd : ℚ) : Pipeline :=
  { p with ipd := ipd }

/-- Number of active optional stages of a configured pipeline. -/
def Pipeline.activeStages (p : Pipeline) : ℕ :=
  (if p.yuv then 1 else 0) + (if p.correction.isSome then 1 else 0) +
    (if p.projection.isSome then 1 else 0)

/-- Failure injection for one `run` call: which of the fallible GPU
operations (each a `?` site in the Rust) returns an error. -/
structure RunEnv where
  submitFails : Bool
  yuvFails : Bool
  correctFails : Bool
  setParamsFails : Bool
  projectFails : Bool
  deriving DecidableEq

/-- All fallible operations succeed. -/
def allStagesSucceed : RunEnv := ⟨false, false, false, false, false⟩

/-- `submit_cpu_image` fails. -/
def submitFailEnv : RunEnv := ⟨true, false, false, false, false⟩

/-- The operations of one `run` call that write a texture. -/
inductive Stage
  | upload
  | yuvConv
  | correct
  | project
  deriving DecidableEq

/-- A destination texture: one of the two ping-pong intermediates, or the
externally supplied output. -/
inductive Dest
  | tex (i : ℕ)
  | output
  deriving DecidableEq

/-- RenderDoc debug-capture events issued by `run`. -/
inductive RdEvent
  | startCapture
  | endCapture
  deriving DecidableEq

/-- Observable outcome of one `run` call: debug-capture events, the
destination recorded for each invoked stage, the fov handed to the
projector (if it was reached), whether the call returned `Ok`, and the
value of the capture flag afterwards. -/
structure RunResult where
  rdEvents : List RdEvent
  dests : List (Stage × Dest)
  projFov : Option Fov
  ok : Bool
  captureOut : Bool
  deriving DecidableEq

/-- src/src/pipeline.rs:289-387 `Pipeline::run`.  Mirrors the control flow:
start capture if flagged; upload into `textures[0]`; optional YUYV
conversion into `textures[next]`; optional lens correction into the next
ping-pong slot if a projector exists, else the output; optional projection
into the output (recomputing fov, then `set_params`, then `project`); end
capture and clear the flag only when the end of the function is reached.
Each `?` early-returns with the capture flag unchanged.  The matrix
arguments and the mvp values stored into the projection parameters live in
the projector (whose current revision is not in this snapshot) and are
irrelevant to the claims about `run` itself. -/
def Pipeline.run (p : Pipeline) (env : RunEnv) : RunResult :=
  let startEv : List RdEvent :=
    if p.capture && p.renderDoc then [RdEvent.startCapture] else []
  -- 1. submit image to GPU
  let next0 : ℕ := 0
  let dests0 := [(Stage.upload, Dest.tex next0)]
  if env.submitFails then ⟨startEv, dests0, none, false, p.capture⟩ else
  let next1 := next0 ^^^ 1
  -- 2. convert YUYV to RGB
  let dests1 :=
    if p.yuv then dests0 ++ [(Stage.yuvConv, Dest.tex next1)] else dests0
  if p.yuv && env.yuvFails then ⟨startEv, dests1, none, false, p.capture⟩ else
  let next2 := if p.yuv then next1 ^^^ 1 else next1
  -- 3. lens correction
  let corrDest := if p.projection.isSome then Dest.tex next2 else Dest.output
  let dests2 :=
    if p.correction.isSome then dests1 ++ [(Stage.correct, corrDest)] else dests1
  if p.correction.isSome && env.correctFails then
    ⟨startEv, dests2, none, false, p.capture⟩ else
  -- 4. projection
  match p.projection with
  | none =>
      let endEv : List RdEvent :=
        if p.capture && p.renderDoc then [RdEvent.endCapture] else []
      ⟨startEv ++ endEv, dests2, none, true, false⟩
  | some _ =>
      let fov := (p.correction.map StereoCorrection.fov).getD defaultFov
      if env.setParamsFails then ⟨startEv, dests2, some fov, false, p.capture⟩ else
      let dests3 := dests2 ++ [(Stage.project, Dest.output)]
      if env.projectFails then ⟨startEv, dests3, some fov, false, p.capture⟩ else
      let endEv : List RdEvent :=
        if p.capture && p.renderDoc then [RdEvent.endCapture] else []
      ⟨startEv ++ endEv, dests3, some fov, true, false⟩

/-- Destination recorded for the last active optional stage of a run
(ignoring the unconditional initial upload). -/
def lastStageDest (r : RunResult) : Option Dest :=
  ((r.dests.filter fun sd => decide (sd.fst ≠ Stage.upload)).getLast?).map Prod.snd

/-- src/src/main.rs:256-264 `struct GpuYuyvConverter`.  Vulkan devices are
identified by a number; `srcDims` are the dimensions the packed source
attachment was allocated with. -/
structure GpuYuyvConverter where
  device : ℕ
  srcDims : ℕ × ℕ
  w : ℕ
  h : ℕ
  deriving DecidableEq

/-- src/src/main.rs:267-350 `GpuYuyvConverter::new`: rejects an odd width,
then allocates the packed source attachment with dimensions `[w / 2, h]`
(src/src/main.rs:304-318, one packed texel per two display pixels). -/
def GpuYuyvConverter.new (device w h : ℕ) : Except String GpuYuyvConverter :=
  if w % 2 ≠ 0 then Except.error "Width cannot be odd"
  else Except.ok ⟨device, (w / 2, h), w, h⟩

/-- GPU work a conversion submits: the host-to-device copy into the packed
source, then the full-screen conversion draw. -/
inductive ConvAction
  | copyBufferToSrc
  | drawConvert
  deriving DecidableEq

/-- src/src/main.rs:357-445 `GpuYuyvConverter::yuyv_buffer_to_vulkan_image`:
the device check precedes every submission; on success the recorded work is
the copy and the draw, and the freshly allocated destination has the
construction dimensions. -/
def GpuYuyvConverter.yuyv_buffer_to_vulkan_image (c : GpuYuyvConverter)
    (queueDevice poolDevice : ℕ) : List ConvAction × Except String (ℕ × ℕ) :=
  if queueDevice ≠ c.device ∨ poolDevice ≠ c.device then
    ([], Except.error "Device mismatch")
  else
    ([ConvAction.copyBufferToSrc, ConvAction.drawConvert], Except.ok (c.w, c.h))

/-- Modelled from the spec: the per-frame conversion of the current
converter revision (`crate::yuv`, whose file is not in this snapshot;
src/src/pipeline.rs:316-323 calls it with an explicit destination texture)
also rejects a destination whose dimensions differ from those fixed at
construction.  The device checks mirror the in-tree revision
(src/src/main.rs:364-366). -/
def GpuYuyvConverter.convertTo (c : GpuYuyvConverter)
    (queueDevice poolDevice destW destH : ℕ) :
    List ConvAction × Except String Unit :=
  if queueDevice ≠ c.device ∨ poolDevice ≠ c.device then
    ([], Except.error "Device mismatch")
  else if destW ≠ c.w ∨ destH ≠ c.h then
    ([], Except.error "Dimension mismatch")
  else
    ([ConvAction.copyBufferToSrc, ConvAction.drawConvert], Except.ok ())

/-- The NUL character tested by `str::contains` in `create_overlay`. -/
def nulChar : Char := Char.ofNat 0

/-- FFI calls `create_overlay` can make into the VR runtime. -/
inductive OverlayAction
  | callCreateOverlay
  deriving DecidableEq

/-- The VR runtime as seen by `create_overlay`: what `CreateOverlay`
followed by `into_result` yields (a handle, or an error). -/
structure VROverlayRuntime where
  createOverlayResult : Except String ℕ

/-- src/src/openvr.rs:90-108 (identical src/src/main.rs:108-126)
`VROverlay::create_overlay`: strings are byte/char lists; the NUL check
precedes the FFI call, whose outcome comes from the runtime state. -/
def create_overlay (rt : VROverlayRuntime) (key name : List Char) :
    List OverlayAction × Except String ℕ :=
  if !key.contains nulChar || !name.contains nulChar then
    ([], Except.error "key and name must both contain a NUL byte")
  else
    ([OverlayAction.callCreateOverlay], rt.createOverlayResult)

/-- Concrete VR-runtime state used by the witnesses below. -/
def sysId : VRSystemState := ⟨fun _ => (1 : M4), 1, 1⟩

/-! ## Theorems -/

/-- The code-side projection matrix with one scalar fov equals the
spec-side diagonal `CameraProjection` with that fov on both axes. -/
theorem camera_projection_eq_CameraProjection (fov : ℚ) :
    camera_projection fov = CameraProjection fov fov := by
  unfold camera_projection CameraProjection
  ext i j
  fin_cases i <;> fin_cases j <;>
    simp [Matrix.diagonal, Matrix.vecHead, Matrix.vecTail]

/-- The code-side `left_cam` literal is the spec-side translation by
(-0.067, -0.039, -0.07). -/
theorem left_cam_eq_translation :
    left_cam = translationMatrix (-(67/1000)) (-(39/1000)) (-(7/100)) := rfl

/-- The code-side `right_cam` literal is the spec-side translation by
(0.067, -0.039, -0.07). -/
theorem right_cam_eq_translation :
    right_cam = translationMatrix (67/1000) (-(39/1000)) (-(7/100)) := rfl

/-- C1: the claim demands that the destination recorded for the last
active optional stage always be the external output texture, never a
ping-pong intermediate.  Evaluating the code at the failing configuration
– YUYV conversion active, no distortion corrector, mono display mode (one
active stage) – shows construction parity is `1 = 1 % 2` as claimed, but
the last (only) active stage records intermediate texture 1 as its
destination and no operation of the run ever targets the output texture:
`run` returns with the externally supplied output unwritten, contradicting
the claim and the spec invariant. -/
theorem c1_yuv_only_last_stage_hits_intermediate :
    (Pipeline.new true DisplayMode.mono 0 none false).activeStages = 1 ∧
    (Pipeline.new true DisplayMode.mono 0 none false).finalTextureId =
      (Pipeline.new true DisplayMode.mono 0 none false).activeStages % 2 ∧
    lastStageDest ((Pipeline.new true DisplayMode.mono 0 none false).run allStagesSucceed) =
      some (Dest.tex 1) ∧
    some (Dest.tex 1) ≠ some Dest.output ∧
    (∀ sd ∈ ((Pipeline.new true DisplayMode.mono 0 none false).run allStagesSucceed).dests,
      sd.snd ≠ Dest.output) := by
  refine ⟨by decide, by decide, by decide, by decide, by decide⟩

/-- C2 (counterexample): a pipeline whose capture flag was set by
`capture_next_frame` and whose next `run` fails at the very first fallible
operation returns an error with the capture flag still set (and with a
debug capture started but never ended), refuting "cleared unconditionally
after that one run() call, including when that run() call fails". -/
theorem c2_failed_run_keeps_capture_flag :
    ((Pipeline.new true DisplayMode.mono 0 none true).capture_next_frame.run submitFailEnv).ok
      = false ∧
    ((Pipeline.new true DisplayMode.mono 0 none true).capture_next_frame.run submitFailEnv).captureOut
      = true ∧
    ((Pipeline.new true DisplayMode.mono 0 none true).capture_next_frame.run submitFailEnv).rdEvents
      = [RdEvent.startCapture] := by
  refine ⟨by decide, by decide, by decide⟩

/-- C2 (amended): the capture flag after a `run` call equals `false` when
the call returned `Ok` and is left unchanged when the call failed partway
through — it is consumed (cleared) exactly by the next successful `run`. -/
theorem c2_capture_flag_cleared_iff_run_succeeds (p : Pipeline) (env : RunEnv) :
    (p.run env).captureOut = (if (p.run env).ok = true then false else p.capture) := by
  obtain ⟨yuv, corr, proj, cap, rd, ipd, ftid, fovn⟩ := p
  obtain ⟨sf, yf, cf, spf, pf⟩ := env
  cases sf <;> cases yuv <;> cases yf <;> cases corr <;> cases cf <;> cases proj <;>
    cases spf <;> cases pf <;> rfl

/-- C3: `calculate_mvp` is deterministic in exactly the data the claim
lists: two calls — against different runtime states, different wall-clock
readings, different time origins/frame times and different source
dimensions — return identical matrix pairs as soon as the projection mode,
the overlay transform, the fov, the two eye-to-head transforms and the
head pose actually fetched coincide.  (The in-tree revision takes a single
scalar fov and no ipd argument, so the result is trivially independent of
ipd.) -/
theorem c3_calculate_mvp_deterministic (p₁ p₂ : Projection)
    (sys₁ sys₂ : VRSystemState) (overlay : M4)
    (fov now₁ ft₁ t₁ now₂ ft₂ t₂ : ℚ)
    (hmode : p₁.mode = p₂.mode)
    (hL : sys₁.eyeToHeadLeft = sys₂.eyeToHeadLeft)
    (hR : sys₁.eyeToHeadRight = sys₂.eyeToHeadRight)
    (hpose : sys₁.poseAt (-(now₁ - t₁ - ft₁)) = sys₂.poseAt (-(now₂ - t₂ - ft₂))) :
    p₁.calculate_mvp overlay fov sys₁ now₁ ft₁ t₁ =
      p₂.calculate_mvp overlay fov sys₂ now₂ ft₂ t₂ := by
  simp only [Projection.calculate_mvp]
  rw [hmode, hL, hR, hpose]

/-- C3 witness: two calls with different clocks (0 vs 5), different time
origins and different source dimensions, agreeing on the listed inputs,
agree on the output. -/
theorem c3_calculate_mvp_deterministic_witness :
    (Projection.mk 1920 960 ProjectionMode.FromEye).calculate_mvp 1 1 sysId 0 0 0 =
      (Projection.mk 640 480 ProjectionMode.FromEye).calculate_mvp 1 1 sysId 5 0 5 :=
  c3_calculate_mvp_deterministic _ _ _ _ _ _ _ _ _ _ _ _ rfl rfl rfl rfl

/-- C4: whenever the per-eye transforms are invertible, `calculate_mvp`
returns, per eye, `CameraProjection x EyeView x OverlayModel` with
`EyeView = inverse(HeadPose x EyeToCameraTransform)`, the eye-to-camera
transform given by the mode (runtime eye-to-head in FromEye; the fixed
measured offsets in FromCamera), and `CameraProjection =
diag(fov/2, fov, -1, 1)` — the horizontal term halved. -/
theorem c4_calculate_mvp_formula (p : Projection) (sys : VRSystemState)
    (overlay : M4) (fov now ft t0 : ℚ)
    (hL : (HeadPose sys now ft t0 * EyeToCameraTransform p.mode Eye.left sys).det ≠ 0)
    (hR : (HeadPose sys now ft t0 * EyeToCameraTransform p.mode Eye.right sys).det ≠ 0) :
    p.calculate_mvp overlay fov sys now ft t0 =
      some (MVP p.mode Eye.left sys overlay fov now ft t0,
            MVP p.mode Eye.right sys overlay fov now ft t0) := by
  obtain ⟨w, h, mode⟩ := p
  cases mode <;>
    simp only [Projection.calculate_mvp, tryInverse, EyeToCameraTransform, HeadPose, MVP,
      EyeView, camera_projection_eq_CameraProjection, left_cam_eq_translation,
      right_cam_eq_translation] at hL hR ⊢ <;>
    rw [if_neg hL, if_neg hR]

/-- C4 witness: at the identity runtime state both invertibility
hypotheses hold and the formula applies. -/
theorem c4_calculate_mvp_formula_witness :
    (HeadPose sysId 0 0 0 * EyeToCameraTransform ProjectionMode.FromEye Eye.left sysId).det ≠ 0 ∧
    (HeadPose sysId 0 0 0 * EyeToCameraTransform ProjectionMode.FromEye Eye.right sysId).det ≠ 0 ∧
    (Projection.mk 1920 960 ProjectionMode.FromEye).calculate_mvp 1 1 sysId 0 0 0 =
      some (MVP ProjectionMode.FromEye Eye.left sysId 1 1 0 0 0,
            MVP ProjectionMode.FromEye Eye.right sysId 1 1 0 0 0) :=
  ⟨by simp [HeadPose, EyeToCameraTransform, sysId],
   by simp [HeadPose, EyeToCameraTransform, sysId],
   c4_calculate_mvp_formula _ _ _ _ _ _ _
     (by simp [HeadPose, EyeToCameraTransform, sysId])
     (by simp [HeadPose, EyeToCameraTransform, sysId])⟩

/-- C5: in `Projection::project` the `eyeOffset` uniform value is the same
for the left and the right eye of one call, and equals
`0.067 - ipd / 2` in FromEye mode and `0` in FromCamera mode. -/
theorem c5_eye_offset_uniform (p : Projection) (ow ipd : ℚ) (l r : M4) :
    (p.project ow ipd l r).1.info.eyeOffset = (p.project ow ipd l r).2.info.eyeOffset ∧
    (p.project ow ipd l r).1.info.eyeOffset =
      (if p.mode = ProjectionMode.FromEye then 67/1000 - ipd / 2 else 0) :=
  ⟨rfl, rfl⟩

/-- C6: with no camera calibration (hence no Distortion Corrector), the
Orchestrator computes the fixed default fov `1.19` for both axes of both
eyes at construction, and any fov it hands to the projector during a `run`
call is that same default. -/
theorem c6_default_fov_without_corrector (syuv : Bool) (dm : DisplayMode)
    (ipd : ℚ) (rd : Bool) (env : RunEnv) (fov : Fov) :
    (Pipeline.new syuv dm ipd none rd).fovAtNew = defaultFov ∧
    (((Pipeline.new syuv dm ipd none rd).run env).projFov = some fov →
      fov = defaultFov) := by
  constructor
  · cases dm <;> rfl
  · intro h
    unfold Pipeline.run Pipeline.new at h
    cases dm <;> simp_all <;> repeat' split at h <;> simp_all

/-- C6 witness: a stereo pipeline without calibration hands the projector
exactly the default fov. -/
theorem c6_default_fov_without_corrector_witness :
    ((Pipeline.new false (DisplayMode.stereo ProjectionMode.FromEye) 0 none false).run
        allStagesSucceed).projFov = some defaultFov ∧
    defaultFov = defaultFov :=
  ⟨rfl, (c6_default_fov_without_corrector false (DisplayMode.stereo ProjectionMode.FromEye)
      0 false allStagesSucceed defaultFov).2 rfl⟩

/-- C7: `Projection::new` errors for every source texture whose width is
not exactly twice its height, and the dimension check passes whenever
width = 2 x height. -/
theorem c7_projection_new_dimension_check (w h : ℕ) (mode : ProjectionMode) :
    (w ≠ h * 2 → Projection.new w h mode = Except.error "Input not square") ∧
    (w = h * 2 → Projection.new w h mode = Except.ok ⟨w, h, mode⟩) := by
  constructor <;> intro hw <;> simp [Projection.new, hw]

/-- C7 witness: 1919 x 960 is rejected; 1920 x 960 passes. -/
theorem c7_projection_new_dimension_check_witness :
    (1919 : ℕ) ≠ 960 * 2 ∧
    Projection.new 1919 960 ProjectionMode.FromCamera = Except.error "Input not square" ∧
    (1920 : ℕ) = 960 * 2 ∧
    Projection.new 1920 960 ProjectionMode.FromCamera =
      Except.ok ⟨1920, 960, ProjectionMode.FromCamera⟩ :=
  ⟨by decide, (c7_projection_new_dimension_check 1919 960 _).1 (by decide), by decide,
   (c7_projection_new_dimension_check 1920 960 _).2 (by decide)⟩

/-- C8: `GpuYuyvConverter::new` errors for every odd width; for every even
width it succeeds and allocates the packed source texture with dimensions
(w / 2, h). -/
theorem c8_converter_width_check (device w h : ℕ) :
    (w % 2 = 1 → GpuYuyvConverter.new device w h = Except.error "Width cannot be odd") ∧
    (w % 2 = 0 → GpuYuyvConverter.new device w h = Except.ok ⟨device, (w / 2, h), w, h⟩) := by
  constructor <;> intro hw <;> simp [GpuYuyvConverter.new, hw]

/-- C8 witness: width 3 is rejected; width 1920 gives a packed source of
960 x 960. -/
theorem c8_converter_width_check_witness :
    (3 : ℕ) % 2 = 1 ∧
    GpuYuyvConverter.new 0 3 2 = Except.error "Width cannot be odd" ∧
    (1920 : ℕ) % 2 = 0 ∧
    GpuYuyvConverter.new 0 1920 960 = Except.ok ⟨0, (960, 960), 1920, 960⟩ :=
  ⟨by decide, (c8_converter_width_check 0 3 2).1 (by decide), by decide,
   (c8_converter_width_check 0 1920 960).2 (by decide)⟩

/-- C9: the in-tree conversion returns the device-mismatch error with no
submitted work whenever the queue or the buffer pool belongs to a
different device; the spec-modelled current revision additionally errors,
with no submitted work, whenever the destination dimensions mismatch those
fixed at construction. -/
theorem c9_conversion_rejects_mismatches (c : GpuYuyvConverter) (qd pd dw dh : ℕ) :
    ((qd ≠ c.device ∨ pd ≠ c.device) →
      c.yuyv_buffer_to_vulkan_image qd pd = ([], Except.error "Device mismatch")) ∧
    ((qd ≠ c.device ∨ pd ≠ c.device ∨ dw ≠ c.w ∨ dh ≠ c.h) →
      (c.convertTo qd pd dw dh).1 = [] ∧
      ∃ e, (c.convertTo qd pd dw dh).2 = Except.error e) := by
  constructor
  · intro hcond
    simp [GpuYuyvConverter.yuyv_buffer_to_vulkan_image, hcond]
  · intro hcond
    unfold GpuYuyvConverter.convertTo
    by_cases hdev : qd ≠ c.device ∨ pd ≠ c.device
    · simp [hdev]
    · have hdim : dw ≠ c.w ∨ dh ≠ c.h := by tauto
      simp [hdev, hdim]

/-- C9 witness: a queue on device 1 against a converter on device 0 is
rejected; a 1024-wide destination against a 1920-wide converter is
rejected with no submitted work. -/
theorem c9_conversion_rejects_mismatches_witness :
    ((1 : ℕ) ≠ 0 ∨ (0 : ℕ) ≠ 0) ∧
    GpuYuyvConverter.yuyv_buffer_to_vulkan_image ⟨0, (960, 960), 1920, 960⟩ 1 0 =
      ([], Except.error "Device mismatch") ∧
    ((0 : ℕ) ≠ 0 ∨ (0 : ℕ) ≠ 0 ∨ (1024 : ℕ) ≠ 1920 ∨ (960 : ℕ) ≠ 960) ∧
    (GpuYuyvConverter.convertTo ⟨0, (960, 960), 1920, 960⟩ 0 0 1024 960).1 = [] ∧
    (∃ e, (GpuYuyvConverter.convertTo ⟨0, (960, 960), 1920, 960⟩ 0 0 1024 960).2 =
      Except.error e) := by
  refine ⟨by decide, (c9_conversion_rejects_mismatches _ 1 0 0 0).1 (by decide),
    by decide, ?_, ?_⟩
  · exact ((c9_conversion_rejects_mismatches ⟨0, (960, 960), 1920, 960⟩ 0 0 1024 960).2
      (by decide)).1
  · exact ((c9_conversion_rejects_mismatches ⟨0, (960, 960), 1920, 960⟩ 0 0 1024 960).2
      (by decide)).2

/-- C10: `create_overlay` returns an error without any FFI call whenever
the key or the name lacks a NUL byte, and an overlay handle is only ever
produced from strings that each contain a NUL byte. -/
theorem c10_create_overlay_nul_check (rt : VROverlayRuntime) (key name : List Char) :
    ((key.contains nulChar = false ∨ name.contains nulChar = false) →
      create_overlay rt key name =
        ([], Except.error "key and name must both contain a NUL byte")) ∧
    (∀ acts h, create_overlay rt key name = (acts, Except.ok h) →
      key.contains nulChar = true ∧ name.contains nulChar = true) := by
  constructor
  · intro hcond
    unfold create_overlay
    rcases hcond with h | h
    · rw [h]; rfl
    · rw [h]
      cases hk : key.contains nulChar <;> rfl
  · intro acts h heq
    unfold create_overlay at heq
    by_cases hk : key.contains nulChar <;> by_cases hn : name.contains nulChar <;>
      simp_all

/-- C10 witness: NUL-free strings are rejected with no runtime call;
NUL-terminated strings reach the runtime and yield a handle. -/
theorem c10_create_overlay_nul_check_witness :
    (([ 'a' ].contains nulChar = false ∨ ([ 'b' ] : List Char).contains nulChar = false) ∧
      create_overlay ⟨Except.ok 7⟩ [ 'a' ] [ 'b' ] =
        ([], Except.error "key and name must both contain a NUL byte")) ∧
    (create_overlay ⟨Except.ok 7⟩ [ 'a', nulChar ] [ 'b', nulChar ] =
        ([OverlayAction.callCreateOverlay], Except.ok 7) ∧
      [ 'a', nulChar ].contains nulChar = true ∧
      ([ 'b', nulChar ] : List Char).contains nulChar = true) :=
  ⟨⟨by decide, (c10_create_overlay_nul_check ⟨Except.ok 7⟩ [ 'a' ] [ 'b' ]).1 (by decide)⟩,
   ⟨rfl, (c10_create_overlay_nul_check ⟨Except.ok 7⟩ [ 'a', nulChar ] [ 'b', nulChar ]).2
      [OverlayAction.callCreateOverlay] 7 rfl⟩⟩

end ICP
